import Mathlib

/-!
Verification of the Training Connect synchronization worker
(src/modules/training_connect.py) against its natural-language
specification.  The definitions below are shallow embeddings of the
worker's functions: browser, database and queue interactions are
modelled as explicit environment data and event traces, exceptions as
explicit outcome values, and the worker's mutable instance fields
(`match_user_url`, `users`, `system_errors`, counters) as an explicit
state record threaded through the functions.
-/

/-- The upload types carried in `upload_info["upload_type"]`.  `other`
stands for any string different from the four recognised ones (the code
compares strings; every branch tests membership in explicit lists). -/
inductive UploadType where
  | student
  | upload_user
  | update_user
  | certificate
  | other
deriving DecidableEq, Repr

/-- Exception classes distinguished by the `except` clauses of
`do_lookup` and `check_match`: `KeyError`, `TimeoutError`,
`NetworkError`, and any other `Exception`. -/
inductive Exc where
  | keyErr
  | timeoutErr
  | networkErr
  | otherErr
deriving DecidableEq, Repr

/-! ## Match scorer (`TrainingConnect.check_match`, lines 997-1258) -/

/-- One iteration of the match-counting loop (lines 1099-1153): the loop
breaks as soon as two matches were found (`if matches >= 2: break`),
otherwise a successful field comparison increments the counter. -/
def matchStep (cnt : Nat) (fieldEq : Bool) : Nat :=
  if cnt ≥ 2 then cnt
  else if fieldEq then cnt + 1 else cnt

/-- The match counter computed by the loop over the profile's field
values: only the indexes 5 (phone), 6 (email) and 7 (birth date) are
compared, in that order (`match_field_values_indexes`, line 1042), with
early exit once two matches have been found.  The booleans are the
outcomes of the three normalised comparisons of the code (digit-stripped
phone, lower-cased email, reformatted birth date); a field absent on
either side compares false. -/
def countMatches (phoneEq emailEq dobEq : Bool) : Nat :=
  matchStep (matchStep (matchStep 0 phoneEq) emailEq) dobEq

/-- The acceptance decision of `check_match`: the candidate is accepted
when `matches >= 2` (line 1183) or when the search returned exactly one
candidate and `matches >= 1` (line 1211).  The two branches of the code
perform identical per-upload-type actions, so they are folded into one
decision here. -/
def checkAccepts (cnt amount : Nat) : Bool :=
  cnt ≥ 2 || (amount == 1 && cnt ≥ 1)

/-- Environment data for one candidate profile visited by `check_match`:
whether the portal interactions before the comparison raise (profile
navigation and field extraction, lines 1009-1037), whether the
comparison loop itself raises (handler at lines 1154-1177), the three
field-comparison outcomes, whether the remote work performed after an
acceptance raises (this is possible only for the `certificate` upload
type, whose acceptance branch drives further portal interactions through
`update_user`/`add_certificate`; `run_database_update` for `update_user`
catches every exception internally, and `add_failed` performs only
internally-guarded database calls), and the profile URL that
`self.page.url` reports when the candidate is accepted. -/
structure Cand where
  raiseBefore : Option Exc
  compareRaises : Bool
  phoneEq : Bool
  emailEq : Bool
  dobEq : Bool
  raiseAfter : Option Exc
  url : String
deriving DecidableEq, Repr

/-- The slice of the worker's mutable state that the lookup pipeline
touches: `self.match_user_url`, the reasons accumulated through
`add_failed` (appended to `self.users`), the number of records appended
to `self.system_errors`, and instrumentation counters: how many
candidate profiles were visited (`goto_user_profile` from
`check_match`), how many times the acceptance branch was entered, how
many times `run_database_update` ran, and whether the
`create_student` flow was entered. -/
structure LkSt where
  muUrl : String
  failures : List String
  sysErrors : Nat
  opened : Nat
  accepts : Nat
  dbUpdates : Nat
  createdStudent : Bool
deriving DecidableEq, Repr

def addFailedS (st : LkSt) (r : String) : LkSt :=
  { st with failures := st.failures ++ [r] }

def addSysErr (st : LkSt) : LkSt :=
  { st with sysErrors := st.sysErrors + 1 }

def compareFailReason : String :=
  "An error occurred during the profile matching process."

def alreadyExistsReason : String :=
  "It appears the user already exists in our system."

def fieldsNoMatchReason : String :=
  "Email, phone number, or birthdate did not match our records."

/-- Model of `TrainingConnect.check_match` for one candidate profile.
Returns the updated state and the exception escaping `check_match`, if
any.  The profile visit is counted first (`goto_user_profile`, line
1010); an exception among the portal reads leaves the rest untouched.
A comparison-loop exception appends a system error and a failure record
and returns (lines 1154-1177).  Otherwise the match counter decides:
on acceptance `self.match_user_url` is set to the page URL and the
per-upload-type action runs (`run_database_update` for `update_user`,
the remote `update_user` certificate flow for `certificate` — the only
action that can itself raise — and `add_failed` for
`student`/`upload_user`); with no acceptance, the last candidate of a
`certificate` lookup records the fields-did-not-match failure
(lines 1239-1256). -/
def checkMatch (ut : UploadType) (amount index : Nat) (c : Cand)
    (st : LkSt) : LkSt × Option Exc :=
  let st := { st with opened := st.opened + 1 }
  match c.raiseBefore with
  | some e => (st, some e)
  | none =>
    if c.compareRaises then
      (addFailedS (addSysErr st) compareFailReason, none)
    else
      let m := countMatches c.phoneEq c.emailEq c.dobEq
      if checkAccepts m amount then
        let st := { st with muUrl := c.url, accepts := st.accepts + 1 }
        match ut with
        | .update_user => ({ st with dbUpdates := st.dbUpdates + 1 }, none)
        | .certificate =>
          match c.raiseAfter with
          | some e => (st, some e)
          | none => (st, none)
        | .student => (addFailedS st alreadyExistsReason, none)
        | .upload_user => (addFailedS st alreadyExistsReason, none)
        | .other => (st, none)
      else
        if index == amount - 1 && st.muUrl == "" && ut == .certificate then
          (addFailedS st fieldsNoMatchReason, none)
        else
          (st, none)

/-- The candidate loop of `do_lookup` (lines 1358-1368 on the name-search
path, lines 1609-1618 on the `our_student` path): each candidate is
checked only while `self.match_user_url` is still empty; an exception
raised inside `check_match` escapes the whole loop. -/
def foldCands (ut : UploadType) (amount : Nat) (cs : List Cand)
    (index : Nat) (st : LkSt) : LkSt × Option Exc :=
  match cs with
  | [] => (st, none)
  | c :: rest =>
    if st.muUrl == "" then
      match checkMatch ut amount index c st with
      | (st2, some e) => (st2, some e)
      | (st2, none) => foldCands ut amount rest (index + 1) st2
    else
      foldCands ut amount rest (index + 1) st

/-! ## The address regular expression (`check_match`, lines 1088-1097)

The code parses the profile's free-text address line with Python's
`re.match` on the pattern
`(?P<address>.*),\s*(?P<city>[^\d]+)\s*(?P<state>[A-Za-z]+)\s*(?P<zipcode>\d+)`.
The fragment of regular expressions needed (single-character classes,
greedy star and plus, numbered capture groups, concatenation) is
embedded below with Python's leftmost, greedy, backtracking semantics:
a quantifier first tries its longest extension and gives characters
back one at a time when the remainder of the pattern fails. -/

/-- Regular-expression terms: a single character constrained by a class
predicate, a greedy star, and a numbered capture group around a
sequence of terms. -/
inductive Re where
  | cls (p : Char → Bool)
  | star (r : Re)
  | group (idx : Nat) (rs : List Re)

/-- Backtracking matcher in continuation-passing style.  `reMatch fuel
rs s caps k` matches the sequence `rs` against a prefix of `s`, threading
the capture list `caps` and calling the continuation `k` on the
remaining suffix; alternatives are tried greedily (longest quantifier
extension first), exactly as Python's engine does.  `fuel` bounds the
recursion depth and is chosen large enough for every concrete input
evaluated in this file. -/
def reMatch (fuel : Nat) (rs : List Re) (s : List Char)
    (caps : List (Nat × List Char))
    (k : List Char → List (Nat × List Char) → Option (List (Nat × List Char))) :
    Option (List (Nat × List Char)) :=
  match fuel with
  | 0 => none
  | fuel + 1 =>
    match rs with
    | [] => k s caps
    | .cls p :: rest =>
      match s with
      | [] => none
      | c :: s2 => if p c then reMatch fuel rest s2 caps k else none
    | .star r :: rest =>
      match reMatch fuel [r] s caps (fun s2 caps2 =>
          if s2.length < s.length then
            reMatch fuel (.star r :: rest) s2 caps2 k
          else none) with
      | some res => some res
      | none => reMatch fuel rest s caps k
    | .group i grs :: rest =>
      reMatch fuel grs s caps (fun s2 caps2 =>
        reMatch fuel rest s2 ((i, s.take (s.length - s2.length)) :: caps2) k)

/-- Python's `pattern.match`: anchored at the start of the string, free
to leave a suffix unconsumed.  Returns the capture list of the first
(leftmost-greedy) successful match. -/
def pyMatch (fuel : Nat) (rs : List Re) (s : List Char) :
    Option (List (Nat × List Char)) :=
  reMatch fuel rs s [] (fun _ caps => some caps)

/-- Python's `\d` on the inputs at hand: ASCII decimal digits. -/
def isDigitCh (c : Char) : Bool := c.isDigit

/-- Python's `\s`: space, tab, newline, carriage return, vertical tab,
form feed. -/
def isWsCh (c : Char) : Bool :=
  c = ' ' || c = '\t' || c = '\n' || c = '\r' || c = '\x0b' || c = '\x0c'

/-- The character class `[A-Za-z]`. -/
def isAlphaCh (c : Char) : Bool :=
  ('A' ≤ c && c ≤ 'Z') || ('a' ≤ c && c ≤ 'z')

/-- Python's `.` outside DOTALL mode: any character except newline. -/
def notNewline (c : Char) : Bool := c ≠ '\n'

/-- The plus quantifier: `r+` desugared to `r` followed by `r*`. -/
def plusRe (r : Re) : List Re := [r, .star r]

/-- The compiled address pattern of line 1088, with the named groups
`address`, `city`, `state`, `zipcode` numbered 1-4 in order. -/
def addressPattern : List Re :=
  [.group 1 [.star (.cls notNewline)],
   .cls (fun c => c = ','),
   .star (.cls isWsCh),
   .group 2 (plusRe (.cls (fun c => !isDigitCh c))),
   .star (.cls isWsCh),
   .group 3 (plusRe (.cls isAlphaCh)),
   .star (.cls isWsCh),
   .group 4 (plusRe (.cls isDigitCh))]

/-- Convenience accessor: the captured text of group `i`. -/
def capOf (caps : List (Nat × List Char)) (i : Nat) : Option (List Char) :=
  (caps.find? (fun pr => pr.1 == i)).map (fun pr => pr.2)

/-! ## Lookup dispatch (`TrainingConnect.do_lookup`, lines 1260-1679) -/

/-- Outcome of a portal search in `do_lookup`: an exception escaping the
navigation/extraction steps, or the list of candidate profiles found.
An empty result on the name-search path is the `view_buttons = []` case
of the inner handler at lines 1337-1339. -/
inductive SearchRes where
  | raised (e : Exc)
  | found (cs : List Cand)
deriving DecidableEq, Repr

/-- Environment of one `do_lookup` invocation: the outcome of the
name search (lines 1313-1336), of the card-ID and OSHA-ID searches
(each `none` when the search succeeds with a single direct hit whose
`update_user` flow completes, `some e` when the branch raises `e`), and
of the `our_student` dashboard search (lines 1569-1584). -/
structure LookupEnv where
  nameRes : SearchRes
  sstidRes : Option Exc
  oshaRes : Option Exc
  osRes : SearchRes
deriving DecidableEq, Repr

/-- The unit fields consulted by `do_lookup`'s branch conditions; an
empty string stands for an absent or falsy value. -/
structure UnitUser where
  first_name : String
  last_name : String
  sstid : String
  osha_id : String
  our_student : Bool
deriving DecidableEq, Repr

def noFirstNameReason : String :=
  "Registration entry is incomplete without a first name."

def noLastNameReason : String :=
  "A last name is required for the registration process."

def excessiveReason : String :=
  "Registration was deferred due to excessive user profiles requiring verification."

def noUserReason : String :=
  "No corresponding user information was found in Training Connect."

def genericLookupFailReason : String :=
  "The specific issue could not be determined. Please contact our support team for detailed assistance via email."

def sstLookupErrReason : String :=
  "A lookup error occurred for this user's information."

/-- The branch condition of line 1304: the name search runs for the
`student`, `update_user` and `upload_user` upload types, and for any
unit that carries neither a card ID nor an OSHA ID and is not flagged
`our_student`. -/
def nameSearchTaken (ut : UploadType) (u : UnitUser) : Bool :=
  ut == .student || ut == .update_user || ut == .upload_user
    || (u.osha_id == "" && u.sstid == "" && !u.our_student)

/-- The name-search branch of `do_lookup` (lines 1304-1439).  `.inl`
is an early return out of `do_lookup` (the ten-or-more-candidates
deferral of lines 1341-1356 and the `create_student` hand-off of lines
1373-1382); `.inr` falls through to the identifier branches.  A
`KeyError`/`TimeoutError` appends only a system error (lines
1401-1420); any other exception appends a system error and a failure
record (lines 1422-1439). -/
def nameBranch (env : LookupEnv) (u : UnitUser) (ut : UploadType)
    (st : LkSt) : LkSt ⊕ LkSt :=
  if !nameSearchTaken ut u then .inr st
  else
    match env.nameRes with
    | .raised e =>
      match e with
      | .keyErr => .inr (addSysErr st)
      | .timeoutErr => .inr (addSysErr st)
      | _ => .inr (addFailedS (addSysErr st) genericLookupFailReason)
    | .found cs =>
      if cs.length ≥ 10 then
        .inl (addFailedS st excessiveReason)
      else
        match foldCands ut cs.length cs 0 st with
        | (st2, some e) =>
          match e with
          | .keyErr => .inr (addSysErr st2)
          | .timeoutErr => .inr (addSysErr st2)
          | _ => .inr (addFailedS (addSysErr st2) genericLookupFailReason)
        | (st2, none) =>
          if st2.muUrl == "" && (ut == .student || ut == .upload_user) then
            .inl { st2 with createdStudent := true }
          else if st2.muUrl == "" then
            .inr (addFailedS st2 noUserReason)
          else
            .inr st2

/-- The card-ID branch (lines 1441-1502): a successful single hit runs
the remote `update_user` flow (which never touches `match_user_url`); a
`KeyError`/`TimeoutError` records a lookup failure; any other exception
records a system error and a failure. -/
def sstidBranch (env : LookupEnv) (u : UnitUser) (st : LkSt) : LkSt :=
  if u.sstid == "" then st
  else
    match env.sstidRes with
    | none => st
    | some .keyErr => addFailedS st sstLookupErrReason
    | some .timeoutErr => addFailedS st sstLookupErrReason
    | some _ => addFailedS (addSysErr st) genericLookupFailReason

/-- The OSHA-ID branch (lines 1504-1565), analogous to the card-ID
branch with the no-user failure message on a failed selector wait. -/
def oshaBranch (env : LookupEnv) (u : UnitUser) (st : LkSt) : LkSt :=
  if u.osha_id == "" then st
  else
    match env.oshaRes with
    | none => st
    | some .keyErr => addFailedS st noUserReason
    | some .timeoutErr => addFailedS st noUserReason
    | some _ => addFailedS (addSysErr st) genericLookupFailReason

/-- The `our_student` dashboard branch (lines 1567-1676).  `.inl`
escapes `do_lookup` with the value of the retry recursion (the
`NetworkError`/`TimeoutError` handler at lines 1634-1641 returns
`self.do_lookup(..., retries + 1)` directly when `retries == 0`);
`.inr` falls through to the final `match_user_url` reset of line 1678.
Note that the candidate loop runs for any count between 1 and 10
inclusive (`if 1 <= amount_of_users <= 10`, line 1602) and the
excessive-profiles deferral requires strictly more than 10 candidates
(line 1620); after a completed loop the code clears `match_user_url`
(line 1619). -/
def osBranch (env : LookupEnv) (u : UnitUser) (ut : UploadType)
    (retryIsZero : Bool) (retryCall : LkSt → LkSt) (st : LkSt) :
    LkSt ⊕ LkSt :=
  if !u.our_student then .inr st
  else
    match env.osRes with
    | .raised e =>
      match e with
      | .networkErr =>
        if retryIsZero then .inl (retryCall st)
        else .inr (addFailedS st noUserReason)
      | .timeoutErr =>
        if retryIsZero then .inl (retryCall st)
        else .inr (addFailedS st noUserReason)
      | _ => .inr (addFailedS (addSysErr st) sstLookupErrReason)
    | .found cs =>
      let n := cs.length
      let st := if n == 0 then addFailedS st noUserReason else st
      if 1 ≤ n && n ≤ 10 then
        match foldCands ut n cs 0 st with
        | (st2, some e) =>
          match e with
          | .networkErr =>
            if retryIsZero then .inl (retryCall st2)
            else .inr (addFailedS st2 noUserReason)
          | .timeoutErr =>
            if retryIsZero then .inl (retryCall st2)
            else .inr (addFailedS st2 noUserReason)
          | _ => .inr (addFailedS (addSysErr st2) sstLookupErrReason)
        | (st2, none) => .inr { st2 with muUrl := "" }
      else if n > 10 then
        .inr (addFailedS st excessiveReason)
      else
        .inr st

/-- One `do_lookup` invocation.  `hasPage` is the `if not self.page`
guard (line 1270); the missing-name early returns are lines 1272-1297.
After the four branches, line 1678 resets `self.match_user_url` to the
empty string; the early returns (`.inl`) skip that reset, and the
`our_student` retry escape returns the recursive call's value
unchanged. -/
def doLookupOnce (env : LookupEnv) (u : UnitUser) (ut : UploadType)
    (hasPage retryIsZero : Bool) (retryCall : LkSt → LkSt)
    (st : LkSt) : LkSt :=
  if !hasPage then st
  else if u.first_name == "" then addFailedS st noFirstNameReason
  else if u.last_name == "" then addFailedS st noLastNameReason
  else
    match nameBranch env u ut st with
    | .inl early => early
    | .inr st1 =>
      let st2 := sstidBranch env u st1
      let st3 := oshaBranch env u st2
      match osBranch env u ut retryIsZero retryCall st3 with
      | .inl escape => escape
      | .inr st4 => { st4 with muUrl := "" }

/-- Model of `do_lookup` with its single retry: the first invocation runs with
`retries == 0` and, if the `our_student` branch fails with a
`NetworkError`/`TimeoutError`, re-enters itself once with `retries == 1`
under a fresh environment `envRetry`; the retried invocation no longer
recurses. -/
def doLookup (env envRetry : LookupEnv) (u : UnitUser) (ut : UploadType)
    (hasPage : Bool) (st : LkSt) : LkSt :=
  doLookupOnce env u ut hasPage true
    (fun s => doLookupOnce envRetry u ut hasPage false (fun s2 => s2) s) st

/-! ## Session establishment (`create_browser_and_login`, lines 1681-1723) -/

/-- Events of the session-establishment loop: one authentication
attempt (`self.login()` behind a fresh browser launch), and one fixed
backoff sleep (`await asyncio.sleep(5)`, line 1722). -/
inductive SessEv where
  | loginAttempt
  | sleepSec (n : Nat)
deriving DecidableEq, Repr

/-- Model of `create_browser_and_login` under an environment where the
browser launches successfully and authentication succeeds iff
`loginOk` (a deterministic authentication failure surfaces as an
exception from `self.login()`, e.g. the success-banner wait timing
out, caught at line 1720).  Returns the event trace, the boolean
result, and the number of system-error records appended (one when the
retry ceiling `retries >= 5` is reached, lines 1682-1690).  The
recursion is expressed on the number of attempts still allowed,
`5 - retries`, so that `attemptsLeft = 0` is exactly the source's
`retries >= 5` guard. -/
def cbalGo (loginOk : Bool) (attemptsLeft : Nat) : List SessEv × Bool × Nat :=
  match attemptsLeft with
  | 0 => ([], false, 1)
  | n + 1 =>
    if loginOk then ([.loginAttempt], true, 0)
    else
      let rec2 := cbalGo loginOk n
      (.loginAttempt :: .sleepSec 5 :: rec2.1, rec2.2.1, rec2.2.2)

/-- Entry point of `create_browser_and_login` at a given `retries` value (the
initial call passes 0). -/
def cbal (loginOk : Bool) (retries : Nat) : List SessEv × Bool × Nat :=
  cbalGo loginOk (5 - retries)

/-! ## Queue-item processing under login failure
(`run_queue_item`, lines 1725-1799, and `run_queue_task`,
lines 1885-1901) -/

/-- Worker state for the batch loop: the session flag, the count of
`SystemErrorRecord`s, the units recorded as failed via `add_failed`,
the number of successful remote mutations performed, and the external
queue list holding the already-queued future batches (`run_queue_item`
never pushes to it). -/
structure QSt where
  loggedIn : Bool
  sysErrors : Nat
  failed : List Nat
  remoteMutations : Nat
  queue : List String
deriving DecidableEq, Repr

/-- The effect of a `do_lookup` call made while the session was never
authenticated: the unauthenticated page cannot reach the student-lookup
results, the selector wait times out, and the corresponding handler
(lines 1401-1420) appends a system error; no remote mutation happens
and the queue is untouched. -/
def doLookupUnauthed (st : QSt) : QSt :=
  { st with sysErrors := st.sysErrors + 1 }

/-- Model of `run_queue_item` for one unit `u`.  `authd` is the effect
of an authenticated lookup (arbitrary here; it is never reached when
login always fails).  At `retries >= 5` the code records a system error
and a failure for the unit and returns without a lookup (lines
1726-1749).  Otherwise a missing session triggers
`create_browser_and_login`, and on failure the item re-enters itself
with `retries + 1` (line 1767); when the recursion returns, control
falls through to the lookup of lines 1776-1783 in the same frame.  The
recursion is expressed on `5 - retries`, so `attemptsLeft = 0` is the
source's `retries >= 5` guard. -/
def runQueueItemGo (loginOk : Bool) (authd : QSt → QSt) (u : Nat)
    (attemptsLeft : Nat) (st : QSt) : QSt :=
  match attemptsLeft with
  | 0 =>
    { st with sysErrors := st.sysErrors + 1, failed := st.failed ++ [u] }
  | n + 1 =>
    let st :=
      if !st.loggedIn then
        let r := cbal loginOk 0
        let st := { st with sysErrors := st.sysErrors + r.2.2,
                            loggedIn := r.2.1 }
        if !r.2.1 then runQueueItemGo loginOk authd u n st else st
      else st
    if st.loggedIn then authd st else doLookupUnauthed st

/-- Entry point of `run_queue_item` at a given `retries` value (the batch loop
passes the default 1). -/
def runQueueItem (loginOk : Bool) (authd : QSt → QSt) (u : Nat)
    (retries : Nat) (st : QSt) : QSt :=
  runQueueItemGo loginOk authd u (5 - retries) st

/-- The batch loop of `run_queue_task` (lines 1894-1895): units are
processed in order, each entering `run_queue_item` with `retries = 1`
(the parameter's default). -/
def runQueueTask (loginOk : Bool) (authd : QSt → QSt) (units : List Nat)
    (st : QSt) : QSt :=
  match units with
  | [] => st
  | u :: rest => runQueueTask loginOk authd rest (runQueueItem loginOk authd u 1 st)

/-! ## Batch-end notifications (`run_queue_item`, lines 1801-1882, and
the system-error flush of `run_queue_task`, lines 1897-1901) -/

/-- One entry of `self.users` as consulted by the batch-end block:
whether the entry is flagged failed (`user.get("failed")`). -/
structure FailedRec where
  failed : Bool
deriving DecidableEq, Repr

/-- Emails the batch-end block can trigger, each carrying the failure
payload passed to the notification function. -/
inductive EmailEv where
  | certFailedEmail (failed : List FailedRec)
  | studentFailedEmail (failed : List FailedRec)
  | couldNotVerifyEmail
  | internalAlert (errs : List String)
deriving DecidableEq, Repr

/-- The operator notifications triggered when a unit with
`position == max` finishes (lines 1801-1868): the branch is selected by
that unit's upload type; the certificate and student notifications are
invoked unconditionally with whatever failure list accumulated (possibly
empty), and the `update_user` could-not-verify notice is sent iff
`self.match_user_url` is empty at the check (line 1841). -/
def endOfBatchEmails (ut : UploadType) (users : List FailedRec)
    (muUrl : String) : List EmailEv :=
  let failedUsers := users.filter (fun r => r.failed)
  (if ut == .certificate then [.certFailedEmail failedUsers] else [])
    ++ (if ut == .student || ut == .upload_user then
          [.studentFailedEmail failedUsers] else [])
    ++ (if ut == .update_user && muUrl == "" then
          [.couldNotVerifyEmail] else [])

/-- The system-error flush at the end of `run_queue_task` (lines
1897-1901): one internal alert email iff any `SystemErrorRecord`
accumulated, after which the list is cleared. -/
def flushSystemErrors (errs : List String) : List EmailEv × List String :=
  if errs.isEmpty then ([], errs) else ([.internalAlert errs], [])

/-- Modelled from the spec: the number of non-empty failure categories
named by the specification's notification property — failed certificate
units, failed student units, and (for `update_user`) a could-not-verify
notice only if no match was ever found across the whole batch.  This
definition follows the spec's words and is compared against the code's
`endOfBatchEmails`. -/
def specNonemptyCategories (failedCertUnits failedStudentUnits : List FailedRec)
    (isUpdateUser noMatchEverFound : Bool) : Nat :=
  (if failedCertUnits.isEmpty then 0 else 1)
    + (if failedStudentUnits.isEmpty then 0 else 1)
    + (if isUpdateUser && noMatchEverFound then 1 else 0)

/-- The `upload_info` block fields consulted by `run_queue_item`:
the unit's 1-based position, the batch's total count, and the upload
type. -/
structure UploadInfo where
  position : Nat
  maxPos : Nat
  uploadType : UploadType
deriving DecidableEq, Repr

/-- The abstract per-unit effect of the lookup phase, as environment
data: whether the unit ends up flagged failed in `self.users`, the
system errors it contributes, and the value `do_lookup` leaves in
`self.match_user_url`. -/
structure UnitOutcome where
  addsFailed : Bool
  addsSysErrs : List String
  muAfter : String
deriving DecidableEq, Repr

/-- Batch-loop state for the notification pipeline: the accumulated
`self.users` flags, the accumulated `self.system_errors`, the current
`self.match_user_url`, and the emails triggered so far. -/
structure BatchSt where
  users : List FailedRec
  sysErrors : List String
  muUrl : String
  emails : List EmailEv
deriving DecidableEq, Repr

/-- One unit of the batch through `run_queue_item` on the no-retry
path: the lookup applies the unit's outcome, and iff
`position == max` the batch-end block fires the operator notifications
and clears the per-batch state (lines 1801-1881; the system-error list
is NOT cleared there — it is flushed by `run_queue_task` after the
loop). -/
def runUnitC3 (info : UploadInfo) (outc : UnitOutcome) (st : BatchSt) :
    BatchSt :=
  let st := { st with
    users := st.users ++ [{ failed := outc.addsFailed }],
    sysErrors := st.sysErrors ++ outc.addsSysErrs,
    muUrl := outc.muAfter }
  if info.position == info.maxPos then
    { st with
      emails := st.emails ++ endOfBatchEmails info.uploadType st.users st.muUrl,
      users := [],
      muUrl := "" }
  else
    st

/-- The batch loop of `run_queue_task` (lines 1894-1895). -/
def runUnitsC3 (units : List (UploadInfo × UnitOutcome)) (st : BatchSt) :
    BatchSt :=
  match units with
  | [] => st
  | (info, outc) :: rest => runUnitsC3 rest (runUnitC3 info outc st)

/-- Model of `run_queue_task`: the batch loop followed by the system-error flush
(lines 1894-1901). -/
def runBatchC3 (units : List (UploadInfo × UnitOutcome)) (st : BatchSt) :
    BatchSt :=
  let st2 := runUnitsC3 units st
  let fl := flushSystemErrors st2.sysErrors
  { st2 with emails := st2.emails ++ fl.1, sysErrors := fl.2 }

/-! ## Attach-certificate flow (`add_certificate`, lines 695-876) -/

/-- Environment of one `add_certificate` run: the outcome of
`validate_certificate_user`, of the local `tc_save_certificate`, of the
course-option search on the remote form, and of the certificate-image
generation.  Portal interactions are modelled as succeeding; the
claims about this flow concern its ordering and short-circuiting. -/
structure CertEnv where
  validateOk : Bool
  validateReason : String
  saveOk : Bool
  saveReason : String
  saveSystem : Bool
  courseFound : Bool
  certGenOk : Bool
  certGenReason : String
  certGenSystem : Bool
deriving DecidableEq, Repr

/-- Remote-portal interactions of the attach-certificate flow, in
program order. -/
inductive CertEv where
  | gotoProfile
  | openCreateCertificate
  | selectCourse
  | fillCertificateFields
  | uploadCertificateImage
  | submitCertificate
deriving DecidableEq, Repr

/-- State threaded through `add_certificate`: failure reasons recorded
via `add_failed`, system errors, whether the local save was attempted,
and the trace of remote-portal interactions. -/
structure CertSt where
  failures : List String
  sysErrors : Nat
  saveAttempted : Bool
  remote : List CertEv
deriving DecidableEq, Repr

def courseNoMatchReason : String :=
  "The course name provided does not match our records."

/-- Model of `TrainingConnect.add_certificate`.  The flow validates the
unit, attempts the local save (`tc_save_certificate`, line 720), records
a failure if the save reported failure (lines 722-732 — note the code
does NOT return there), stops if `only_lms` is set (lines 734-735), and
only then begins the remote interaction with `page.goto(page_url)`
(line 737) followed by the create-certificate form steps. -/
def add_certificate (env : CertEnv) (onlyLms hasPage : Bool)
    (st : CertSt) : CertSt :=
  if !hasPage then st
  else if !env.validateOk then
    { st with failures := st.failures ++ [env.validateReason] }
  else
    let st := { st with saveAttempted := true }
    let st :=
      if !env.saveOk then
        let st := { st with failures := st.failures ++ [env.saveReason] }
        if env.saveSystem then { st with sysErrors := st.sysErrors + 1 }
        else st
      else st
    if onlyLms then st
    else
      let st := { st with remote := st.remote
        ++ [CertEv.gotoProfile, CertEv.openCreateCertificate] }
      if !env.courseFound then
        { st with failures := st.failures ++ [courseNoMatchReason] }
      else
        let st := { st with remote := st.remote
          ++ [CertEv.selectCourse, CertEv.fillCertificateFields] }
        if !env.certGenOk then
          let st := { st with failures := st.failures ++ [env.certGenReason] }
          if env.certGenSystem then { st with sysErrors := st.sysErrors + 1 }
          else st
        else
          { st with remote := st.remote
            ++ [CertEv.uploadCertificateImage, CertEv.submitCertificate] }

/-! ## Remote profile creation (`create_student`, lines 390-693) -/

/-- The unit fields consulted by `create_student`'s local validation,
in source order; an empty string stands for an absent or falsy value. -/
structure StudentFields where
  phone_number : String
  height : String
  eye_color : String
  gender : String
  house_number : String
  street_name : String
  city : String
  state : String
  zipcode : String
deriving DecidableEq, Repr

/-- Environment of one `create_student` run: whether the date of birth
parses in one of the two accepted formats (lines 505-534), whether the
state dropdown matched (lines 582-606), and the inline validation error
texts found after submission (`dangers`, lines 637-653; `[]` when
none). -/
structure CreateEnv where
  dobParses : Bool
  stateMatched : Bool
  dangers : List String
deriving DecidableEq, Repr

/-- Remote-portal interactions of the create-student flow. -/
inductive CreateEv where
  | gotoCreateForm
  | fillCreateForm
  | submitCreateForm
deriving DecidableEq, Repr

/-- State threaded through `create_student`: failure reasons recorded
via `add_failed`, and the trace of remote-portal interactions. -/
structure CrSt where
  failures : List String
  remote : List CreateEv
deriving DecidableEq, Repr

def missingReason (field : String) : String :=
  "It appears we are missing the " ++ field ++ "."

def dobConvertReason : String :=
  "It appears there was an issue converting the date of birth provided."

def stateMismatchReason : String :=
  "It appears there was an issue with the state provided."

def dangersReason (dangers : List String) : String :=
  "We encountered some platform-specific errors: [" ++ String.intercalate ", " dangers ++ "]."

/-- Model of `TrainingConnect.create_student`.  The nine required-field
checks (phone number, height, eye color, gender, house number, street
name, city, state, zip code — lines 394-500) each record a failure and
return; they all run before the first remote interaction, the
navigation to the create form at line 536.  The date-of-birth
conversion (lines 505-534) also precedes it.  After the form is filled
and submitted, any inline validation error text is treated as failure
(lines 655-676). -/
def create_student (env : CreateEnv) (sf : StudentFields)
    (hasPage : Bool) (st : CrSt) : CrSt :=
  if !hasPage then st
  else if sf.phone_number == "" then
    { st with failures := st.failures ++ [missingReason "phone number"] }
  else if sf.height == "" then
    { st with failures := st.failures ++ [missingReason "height"] }
  else if sf.eye_color == "" then
    { st with failures := st.failures ++ [missingReason "eye color"] }
  else if sf.gender == "" then
    { st with failures := st.failures ++ [missingReason "gender"] }
  else if sf.house_number == "" then
    { st with failures := st.failures ++ [missingReason "house number"] }
  else if sf.street_name == "" then
    { st with failures := st.failures ++ [missingReason "street name"] }
  else if sf.city == "" then
    { st with failures := st.failures ++ [missingReason "city"] }
  else if sf.state == "" then
    { st with failures := st.failures ++ [missingReason "state"] }
  else if sf.zipcode == "" then
    { st with failures := st.failures ++ [missingReason "zip code"] }
  else if !env.dobParses then
    { st with failures := st.failures ++ [dobConvertReason] }
  else
    let st := { st with remote := st.remote
      ++ [CreateEv.gotoCreateForm, CreateEv.fillCreateForm] }
    if !env.stateMatched then
      { st with failures := st.failures ++ [stateMismatchReason] }
    else
      let st := { st with remote := st.remote ++ [CreateEv.submitCreateForm] }
      if !env.dangers.isEmpty then
        { st with failures := st.failures ++ [dangersReason env.dangers] }
      else
        st

/-! ## Durable work queue (`redis_check` / `redis_rpush` / `redis_lpop`,
lines 2046-2084) -/

/-- State of the queue client: whether the current store connection is
alive (a live connection answers `ping`), the queue's list contents,
and instrumentation counters for operation attempts and
re-connections. -/
structure RSt where
  conn : Bool
  queue : List String
  rpushAttempts : Nat
  lpopAttempts : Nat
  reconnects : Nat
deriving DecidableEq, Repr

/-- Model of `redis_check` (lines 2046-2054): when the connection is
missing or no longer answers `ping`, a new connection is established
(succeeding iff `reconnectOk`); the result is whether a live connection
is available afterwards. -/
def redis_check (reconnectOk : Bool) (st : RSt) : Bool × RSt :=
  if st.conn then (true, st)
  else (reconnectOk,
    { st with conn := reconnectOk, reconnects := st.reconnects + 1 })

/-- Model of `redis_rpush` (lines 2056-2069).  `opRaises k` tells
whether the `k`-th push operation of this run raises.  The connection is
(re-)checked before each attempt; a raised operation is retried exactly
once (`retries` starts at 1 and the retry recurses with `retries = 0`),
after which failure surfaces as `false`. -/
def redis_rpush (reconnectOk : Bool) (opRaises : Nat → Bool)
    (data : String) (retries : Nat) (st : RSt) : Bool × RSt :=
  match redis_check reconnectOk st with
  | (false, st) => (false, st)
  | (true, st) =>
    let k := st.rpushAttempts
    let st := { st with rpushAttempts := k + 1 }
    if opRaises k then
      match retries with
      | n + 1 =>
        -- the source retries with `retries=0`; `n` is that same 0 for
        -- the entry value `retries=1` used at every call site
        redis_rpush reconnectOk opRaises data n st
      | 0 => (false, st)
    else
      (true, { st with queue := st.queue ++ [data] })

/-- Model of `redis_lpop` (lines 2071-2084), with the same
check-then-retry-once structure; a `none` result on a healthy empty
queue is the normal idle signal, not an error. -/
def redis_lpop (reconnectOk : Bool) (opRaises : Nat → Bool)
    (retries : Nat) (st : RSt) : Option String × RSt :=
  match redis_check reconnectOk st with
  | (false, st) => (none, st)
  | (true, st) =>
    let k := st.lpopAttempts
    let st := { st with lpopAttempts := k + 1 }
    if opRaises k then
      match retries with
      | n + 1 => redis_lpop reconnectOk opRaises n st
      | 0 => (none, st)
    else
      match st.queue with
      | [] => (none, st)
      | x :: rest => (some x, { st with queue := rest })

/-! ## Concrete instances used in counterexamples and witnesses -/

/-- The worker's lookup state at start (fields initialised as in
`TrainingConnect.__init__`, lines 127-145: empty `match_user_url`, no
accumulated failures or system errors). -/
def st0 : LkSt :=
  { muUrl := "", failures := [], sysErrors := 0, opened := 0,
    accepts := 0, dbUpdates := 0, createdStudent := false }

/-- A candidate none of whose three compared fields matches. -/
def cNoMatch : Cand :=
  { raiseBefore := none, compareRaises := false, phoneEq := false,
    emailEq := false, dobEq := false, raiseAfter := none, url := "" }

/-- A candidate whose phone and email both match, at profile URL
`"X"`. -/
def cTwoMatch : Cand :=
  { raiseBefore := none, compareRaises := false, phoneEq := true,
    emailEq := true, dobEq := false, raiseAfter := none, url := "X" }

/-- A candidate whose email alone matches. -/
def cOneMatch : Cand :=
  { raiseBefore := none, compareRaises := false, phoneEq := false,
    emailEq := true, dobEq := false, raiseAfter := none, url := "Y" }

/-- A unit with names only, flagged `our_student`. -/
def uOS : UnitUser :=
  { first_name := "A", last_name := "B", sstid := "", osha_id := "",
    our_student := true }

/-- A unit with names only, not flagged `our_student`. -/
def uPlain : UnitUser :=
  { first_name := "A", last_name := "B", sstid := "", osha_id := "",
    our_student := false }

/-- Environment for the ten-candidate dashboard search: the name search
is irrelevant (the unit below never takes it), the dashboard search
finds exactly 10 candidates. -/
def envTenOS : LookupEnv :=
  { nameRes := .found [], sstidRes := none, oshaRes := none,
    osRes := .found (List.replicate 10 cNoMatch) }

/-- Environment in which the name search finds one two-field match and
the dashboard search then fails with a `NetworkError`. -/
def envMatchThenNetErr : LookupEnv :=
  { nameRes := .found [cTwoMatch], sstidRes := none, oshaRes := none,
    osRes := .raised .networkErr }

/-- Retry environment in which the repeated name search returns ten
candidates. -/
def envRetryTen : LookupEnv :=
  { nameRes := .found (List.replicate 10 cNoMatch), sstidRes := none,
    oshaRes := none, osRes := .found [] }

/-- The address line of the specification's end-to-end scenario. -/
def addrInput : List Char := "123 Main St, Springfield NY 10001".toList

/-- A certificate-flow environment in which validation passes and the
local save fails with a duplicate-certificate-number reason. -/
def envSaveFail : CertEnv :=
  { validateOk := true, validateReason := "",
    saveOk := false, saveReason := "duplicate certificate number",
    saveSystem := false, courseFound := true, certGenOk := true,
    certGenReason := "", certGenSystem := false }

/-- The attach-certificate state at entry of a fresh unit. -/
def cert0 : CertSt :=
  { failures := [], sysErrors := 0, saveAttempted := false, remote := [] }

/-- The batch-pipeline state at the start of a batch. -/
def batch0 : BatchSt :=
  { users := [], sysErrors := [], muUrl := "", emails := [] }

/-- Position data for a batch of `outs.length` units typed `ut`,
numbered from `pos`. -/
def mkBatchGo (ut : UploadType) (n pos : Nat) (outs : List UnitOutcome) :
    List (UploadInfo × UnitOutcome) :=
  match outs with
  | [] => []
  | o :: rest => ({ position := pos, maxPos := n, uploadType := ut }, o)
      :: mkBatchGo ut n (pos + 1) rest

/-- A batch of `outs.length` units of type `ut` with 1-based positions
and a shared `max`, as the producers construct `upload_info`. -/
def mkBatch (ut : UploadType) (outs : List UnitOutcome) :
    List (UploadInfo × UnitOutcome) :=
  mkBatchGo ut outs.length 1 outs

/-- The queue-worker state before a batch: no session, no errors, no
failures, with the already-queued future batches `q`. -/
def q0 (q : List String) : QSt :=
  { loggedIn := false, sysErrors := 0, failed := [], remoteMutations := 0,
    queue := q }

/-- A queue-client state with a live connection and empty queue. -/
def r0 : RSt :=
  { conn := true, queue := [], rpushAttempts := 0, lpopAttempts := 0,
    reconnects := 0 }

/-- A unit outcome that records a failure and one system error. -/
def oW : UnitOutcome :=
  { addsFailed := true, addsSysErrs := ["boom"], muAfter := "" }

/-- Three candidates, each with at most one matching field. -/
def threeCands : List Cand := [cNoMatch, cNoMatch, cOneMatch]

/-- Environment whose name search returns the three candidates above. -/
def envThreeCands : LookupEnv :=
  { nameRes := .found threeCands, sstidRes := none, oshaRes := none,
    osRes := .found [] }

/-- Student fields with everything present except the phone number. -/
def sfNoPhone : StudentFields :=
  { phone_number := "", height := "70", eye_color := "brown",
    gender := "M", house_number := "12", street_name := "Main St",
    city := "NYC", state := "NY", zipcode := "10001" }

/-! ## Theorems -/

/-- C6: when authentication deterministically fails on every attempt
(each `login()` raising, e.g. the success-banner wait timing out),
`create_browser_and_login` performs exactly 5 login attempts — not more,
not fewer — with a fixed 5-second sleep separating consecutive
attempts, and then returns failure, recording the retry-exhaustion
system error. -/
theorem C6_session_retry_five :
    cbal false 0 =
      ([SessEv.loginAttempt, SessEv.sleepSec 5, SessEv.loginAttempt,
        SessEv.sleepSec 5, SessEv.loginAttempt, SessEv.sleepSec 5,
        SessEv.loginAttempt, SessEv.sleepSec 5, SessEv.loginAttempt,
        SessEv.sleepSec 5], false, 1)
    ∧ (cbal false 0).1.count SessEv.loginAttempt = 5 := by
  decide

/-- C4: evaluating the address-parsing regular expression of
`check_match` (line 1088) on the specification's scenario input
`"123 Main St, Springfield NY 10001"`: the backtracking engine assigns
`address = "123 Main St"` and `zipcode = "10001"` as the claim states,
but the greedy `[^\d]+` city group swallows the first letter of the
state, yielding `city = "Springfield N"` and `state = "Y"` instead of
the claimed `city = "Springfield"`, `state = "NY"`. -/
theorem C4_address_regex_eval :
    (pyMatch 2000 addressPattern addrInput).map (fun caps =>
        (capOf caps 1, capOf caps 2, capOf caps 3, capOf caps 4))
      = some (some ("123 Main St".toList), some ("Springfield N".toList),
          some ("Y".toList), some ("10001".toList))
    ∧ "Springfield N".toList ≠ "Springfield".toList
    ∧ "Y".toList ≠ "NY".toList := by
  refine ⟨?_, by decide, by decide⟩
  decide

/-- C2: evaluating `add_certificate` on a unit that passes validation
but whose local save (`tc_save_certificate`) fails, with `only_lms`
unset: the failure is recorded, yet — because the failed-save branch at
lines 722-732 does not return — the flow proceeds to the remote portal
and performs the whole create-certificate interaction, contradicting
the claimed short-circuit. -/
theorem C2_attach_certificate_save_fail_eval :
    (add_certificate envSaveFail false true cert0).failures
        = ["duplicate certificate number"]
    ∧ (add_certificate envSaveFail false true cert0).saveAttempted = true
    ∧ (add_certificate envSaveFail false true cert0).remote
        = [CertEv.gotoProfile, CertEv.openCreateCertificate,
           CertEv.selectCourse, CertEv.fillCertificateFields,
           CertEv.uploadCertificateImage, CertEv.submitCertificate] := by
  decide

/-- C3 counterexample: a one-unit certificate batch that succeeds (no
failure recorded, no system error) still triggers one operator
notification email — `certification_failed_users_notification` is
invoked unconditionally at `position == max` (lines 1805-1813) — while
the claim's count of non-empty failure categories is 0. -/
theorem C3_notification_count_counterexample :
    (runBatchC3 (mkBatch .certificate
        [{ addsFailed := false, addsSysErrs := [], muAfter := "" }])
        batch0).emails
      = [EmailEv.certFailedEmail []]
    ∧ specNonemptyCategories [] [] false false = 0 := by
  decide

/-- C5 counterexample: an `our_student` dashboard search returning
exactly 10 candidate profiles — more than 9 — still enters the
disambiguation loop (`if 1 <= amount_of_users <= 10`, line 1602): all
ten profiles are opened and scored, and the excessive-profiles failure
is not recorded. -/
theorem C5_candidate_threshold_counterexample :
    (doLookup envTenOS envTenOS uOS .certificate true st0).opened = 10
    ∧ excessiveReason
        ∉ (doLookup envTenOS envTenOS uOS .certificate true st0).failures := by
  decide

/-- C10 counterexample: an `update_user` unit flagged `our_student`
whose name search records a two-field match (`match_user_url := "X"`),
whose dashboard search then raises a `NetworkError`, and whose retry's
name search returns ten candidates, makes `do_lookup` return through
the early excessive-profiles exit (line 1356) with `match_user_url`
still `"X"` — the reset of line 1678 is skipped. -/
theorem C10_match_url_reset_counterexample :
    (doLookup envMatchThenNetErr envRetryTen uOS .update_user true st0).muUrl
      = "X" := by
  decide

/-- C8: a `student`/`upload_user` unit missing any of the nine required
fields (phone, height, eye color, gender, house number, street name,
city, state, zip) makes `create_student` record exactly one failure and
return before any remote-portal interaction: the remote event trace is
left untouched. -/
theorem C8_required_fields (env : CreateEnv) (sf : StudentFields)
    (st : CrSt)
    (hmiss : sf.phone_number = "" ∨ sf.height = "" ∨ sf.eye_color = ""
      ∨ sf.gender = "" ∨ sf.house_number = "" ∨ sf.street_name = ""
      ∨ sf.city = "" ∨ sf.state = "" ∨ sf.zipcode = "") :
    (create_student env sf true st).remote = st.remote
    ∧ (create_student env sf true st).failures.length
        = st.failures.length + 1 := by
  by_cases h1 : sf.phone_number == ""
  · constructor <;> simp [create_student, h1]
  by_cases h2 : sf.height == ""
  · constructor <;> simp [create_student, h1, h2]
  by_cases h3 : sf.eye_color == ""
  · constructor <;> simp [create_student, h1, h2, h3]
  by_cases h4 : sf.gender == ""
  · constructor <;> simp [create_student, h1, h2, h3, h4]
  by_cases h5 : sf.house_number == ""
  · constructor <;> simp [create_student, h1, h2, h3, h4, h5]
  by_cases h6 : sf.street_name == ""
  · constructor <;> simp [create_student, h1, h2, h3, h4, h5, h6]
  by_cases h7 : sf.city == ""
  · constructor <;> simp [create_student, h1, h2, h3, h4, h5, h6, h7]
  by_cases h8 : sf.state == ""
  · constructor <;> simp [create_student, h1, h2, h3, h4, h5, h6, h7, h8]
  by_cases h9 : sf.zipcode == ""
  · constructor <;> simp [create_student, h1, h2, h3, h4, h5, h6, h7, h8, h9]
  exfalso
  rcases hmiss with h|h|h|h|h|h|h|h|h <;> simp_all

/-- Witness for C8 at a concrete unit missing only the phone number. -/
theorem C8_required_fields_witness :
    (create_student { dobParses := true, stateMatched := true, dangers := [] }
        sfNoPhone true { failures := [], remote := [] }).remote = []
    ∧ (create_student { dobParses := true, stateMatched := true, dangers := [] }
        sfNoPhone true { failures := [], remote := [] }).failures.length
        = 1 :=
  C8_required_fields _ sfNoPhone _ (Or.inl rfl)

/-- C9: queue push and pop re-establish the store connection
transparently (a dead connection is reconnected inside `redis_check`
before the operation) and retry the failed operation exactly once
before surfacing failure — a push whose two attempts both raise returns
`false` after exactly 2 operation attempts, a pop likewise returns
`none` after exactly 2 attempts; and a pop on a healthy empty queue
returns `none` with the state otherwise unchanged — the normal idle
signal, not an error. -/
theorem C9_queue_retry (d : String)
    (st1 : RSt) (op1 : Nat → Bool)
    (h1 : st1.conn = true) (h2 : op1 st1.rpushAttempts = true)
    (h3 : op1 (st1.rpushAttempts + 1) = true)
    (st2 : RSt) (op2 : Nat → Bool)
    (h4 : st2.conn = true) (h5 : op2 st2.lpopAttempts = true)
    (h6 : op2 (st2.lpopAttempts + 1) = true)
    (st3 : RSt) (op3 : Nat → Bool)
    (h7 : st3.conn = true) (h8 : op3 st3.lpopAttempts = false)
    (h9 : st3.queue = [])
    (st4 : RSt) (op4 : Nat → Bool)
    (h10 : st4.conn = false) (h11 : op4 st4.rpushAttempts = false) :
    ((redis_rpush true op1 d 1 st1).1 = false
      ∧ (redis_rpush true op1 d 1 st1).2.rpushAttempts
          = st1.rpushAttempts + 2)
    ∧ ((redis_lpop true op2 1 st2).1 = none
      ∧ (redis_lpop true op2 1 st2).2.lpopAttempts
          = st2.lpopAttempts + 2)
    ∧ ((redis_lpop true op3 1 st3).1 = none
      ∧ (redis_lpop true op3 1 st3).2
          = { st3 with lpopAttempts := st3.lpopAttempts + 1 })
    ∧ ((redis_rpush true op4 d 1 st4).1 = true
      ∧ (redis_rpush true op4 d 1 st4).2.queue = st4.queue ++ [d]
      ∧ (redis_rpush true op4 d 1 st4).2.reconnects
          = st4.reconnects + 1) := by
  refine ⟨⟨?_, ?_⟩, ⟨?_, ?_⟩, ⟨?_, ?_⟩, ⟨?_, ?_, ?_⟩⟩ <;>
    simp [redis_rpush, redis_lpop, redis_check, h1, h2, h3, h4, h5, h6,
      h7, h8, h9, h10, h11]

/-- Witness for C9 at concrete stores and operation outcomes. -/
theorem C9_queue_retry_witness :
    ((redis_rpush true (fun _ => true) "b" 1 r0).1 = false
      ∧ (redis_rpush true (fun _ => true) "b" 1 r0).2.rpushAttempts
          = r0.rpushAttempts + 2)
    ∧ ((redis_lpop true (fun _ => true) 1 r0).1 = none
      ∧ (redis_lpop true (fun _ => true) 1 r0).2.lpopAttempts
          = r0.lpopAttempts + 2)
    ∧ ((redis_lpop true (fun _ => false) 1 r0).1 = none
      ∧ (redis_lpop true (fun _ => false) 1 r0).2
          = { r0 with lpopAttempts := r0.lpopAttempts + 1 })
    ∧ ((redis_rpush true (fun _ => false) "b" 1
          { r0 with conn := false }).1 = true
      ∧ (redis_rpush true (fun _ => false) "b" 1
          { r0 with conn := false }).2.queue
          = { r0 with conn := false }.queue ++ ["b"]
      ∧ (redis_rpush true (fun _ => false) "b" 1
          { r0 with conn := false }).2.reconnects
          = { r0 with conn := false }.reconnects + 1) :=
  C9_queue_retry "b" r0 (fun _ => true) rfl rfl rfl
    r0 (fun _ => true) rfl rfl rfl
    r0 (fun _ => false) rfl rfl rfl
    { r0 with conn := false } (fun _ => false) rfl rfl

/-- Helper: one `run_queue_item` under always-failing login, starting
without a session, keeps the session down, performs no remote mutation,
never touches the queue, strictly increases the system-error count, and
records the unit as failed exactly once. -/
theorem runQueueItemGo_loginFail (authd : QSt → QSt) (u : Nat) :
    ∀ (n : Nat) (st : QSt), st.loggedIn = false →
      (runQueueItemGo false authd u n st).loggedIn = false
      ∧ (runQueueItemGo false authd u n st).remoteMutations
          = st.remoteMutations
      ∧ (runQueueItemGo false authd u n st).queue = st.queue
      ∧ st.sysErrors < (runQueueItemGo false authd u n st).sysErrors
      ∧ (runQueueItemGo false authd u n st).failed = st.failed ++ [u] := by
  intro n
  induction n with
  | zero =>
    rintro ⟨li, se, fl, rm, q⟩ h
    subst h
    refine ⟨rfl, rfl, rfl, ?_, rfl⟩
    simp [runQueueItemGo]
  | succ n ih =>
    rintro ⟨li, se, fl, rm, q⟩ h
    subst h
    have hstep : runQueueItemGo false authd u (n + 1) ⟨false, se, fl, rm, q⟩
        = (if (runQueueItemGo false authd u n ⟨false, se + 1, fl, rm, q⟩).loggedIn
           then authd (runQueueItemGo false authd u n ⟨false, se + 1, fl, rm, q⟩)
           else doLookupUnauthed
             (runQueueItemGo false authd u n ⟨false, se + 1, fl, rm, q⟩)) := rfl
    obtain ⟨hLi, hRm, hQ, hSe, hF⟩ := ih ⟨false, se + 1, fl, rm, q⟩ rfl
    rw [hstep, hLi]
    simp only [Bool.false_eq_true, if_false, doLookupUnauthed]
    refine ⟨hLi, hRm, hQ, ?_, hF⟩
    simp only [] at hSe ⊢
    omega

/-- Helper: the batch loop under always-failing login: session stays
down, no remote mutation, queue untouched, previously recorded failures
survive, every unit of the batch ends up recorded as failed, and the
system-error count strictly increases as soon as the batch is
non-empty. -/
theorem runQueueTask_loginFail (authd : QSt → QSt) :
    ∀ (units : List Nat) (st : QSt), st.loggedIn = false →
      (runQueueTask false authd units st).loggedIn = false
      ∧ (runQueueTask false authd units st).remoteMutations
          = st.remoteMutations
      ∧ (runQueueTask false authd units st).queue = st.queue
      ∧ (∀ x ∈ st.failed, x ∈ (runQueueTask false authd units st).failed)
      ∧ (∀ x ∈ units, x ∈ (runQueueTask false authd units st).failed)
      ∧ st.sysErrors ≤ (runQueueTask false authd units st).sysErrors
      ∧ (units ≠ [] →
          st.sysErrors < (runQueueTask false authd units st).sysErrors) := by
  intro units
  induction units with
  | nil =>
    intro st h
    exact ⟨h, rfl, rfl, fun x hx => hx, fun x hx => absurd hx (by simp),
      le_refl _, fun hne => absurd rfl hne⟩
  | cons u rest ih =>
    intro st h
    obtain ⟨iLi, iRm, iQ, iSe, iF⟩ := runQueueItemGo_loginFail authd u 4 st h
    obtain ⟨tLi, tRm, tQ, tOld, tNew, tLe, tLt⟩ :=
      ih (runQueueItemGo false authd u 4 st) iLi
    have hun : runQueueTask false authd (u :: rest) st
        = runQueueTask false authd rest (runQueueItemGo false authd u 4 st) :=
      rfl
    rw [hun]
    refine ⟨tLi, by rw [tRm, iRm], by rw [tQ, iQ], ?_, ?_, ?_, fun _ => ?_⟩
    · intro x hx
      exact tOld x (by rw [iF]; exact List.mem_append_left _ hx)
    · intro x hx
      rcases List.mem_cons.mp hx with hx | hx
      · subst hx
        exact tOld x (by rw [iF]; exact List.mem_append_right _ (by simp))
      · exact tNew x hx
    · omega
    · omega

/-- C7: when the session-retry ceiling is exhausted on every attempt
(authentication deterministically failing, so each
`create_browser_and_login` run ends at `retries >= 5`), system errors
are recorded, and the units of the current batch are abandoned: none of
them is processed against the portal (no remote mutation happens for
the whole batch — an unauthenticated page cannot reach lookup results),
none is re-queued (the store queue, holding the already-queued future
batches, is exactly what it was, so those batches pop independently
later), and each unit is instead recorded as failed for the operator
notifications. -/
theorem C7_session_exhausted_batch (authd : QSt → QSt) (units : List Nat)
    (st : QSt) (hlog : st.loggedIn = false) (hne : units ≠ []) :
    (runQueueTask false authd units st).remoteMutations
        = st.remoteMutations
    ∧ (runQueueTask false authd units st).queue = st.queue
    ∧ st.sysErrors < (runQueueTask false authd units st).sysErrors
    ∧ ∀ u ∈ units, u ∈ (runQueueTask false authd units st).failed := by
  obtain ⟨_, tRm, tQ, _, tNew, _, tLt⟩ :=
    runQueueTask_loginFail authd units st hlog
  exact ⟨tRm, tQ, tLt hne, tNew⟩

/-- Witness for C7: a one-unit batch against a queue holding one future
batch, starting with no session. -/
theorem C7_session_exhausted_batch_witness :
    (runQueueTask false (fun s => s) [3] (q0 ["future"])).remoteMutations
        = (q0 ["future"]).remoteMutations
    ∧ (runQueueTask false (fun s => s) [3] (q0 ["future"])).queue
        = (q0 ["future"]).queue
    ∧ (q0 ["future"]).sysErrors
        < (runQueueTask false (fun s => s) [3] (q0 ["future"])).sysErrors
    ∧ ∀ u ∈ [3], u ∈ (runQueueTask false (fun s => s) [3] (q0 ["future"])).failed :=
  C7_session_exhausted_batch (fun s => s) [3] (q0 ["future"]) rfl (by simp)

/-- Helper: the acceptance test holds whenever the counter reached 2. -/
theorem checkAccepts_ge_two {m amount : Nat} (h : 2 ≤ m) :
    checkAccepts m amount = true := by
  simp [checkAccepts]
  omega

/-- Helper: with one match, the acceptance test is exactly the
single-candidate test. -/
theorem checkAccepts_one {amount : Nat} (h : amount ≠ 1) :
    checkAccepts 1 amount = false := by
  simp [checkAccepts]
  omega

/-- Helper: against three candidates, a counter below 2 never
accepts. -/
theorem checkAccepts_le_one_three {m : Nat} (h : m ≤ 1) :
    checkAccepts m 3 = false := by
  simp [checkAccepts]
  omega

/-- Helper: an accepted candidate bumps the acceptance counter by one,
whatever the upload type does afterwards. -/
theorem checkMatch_accept (ut : UploadType) (amount index : Nat) (c : Cand)
    (st : LkSt) (hb : c.raiseBefore = none) (hc : c.compareRaises = false)
    (ha : checkAccepts (countMatches c.phoneEq c.emailEq c.dobEq) amount
      = true) :
    (checkMatch ut amount index c st).1.accepts = st.accepts + 1 := by
  cases ut <;>
    simp [checkMatch, hb, hc, ha, addFailedS, addSysErr] <;>
    cases c.raiseAfter <;> simp

/-- Helper: a rejected candidate leaves the acceptance counter, the
match URL, and the exception status untouched (only the last-candidate
certificate failure may be recorded). -/
theorem checkMatch_nonaccept (ut : UploadType) (amount index : Nat)
    (c : Cand) (st : LkSt) (hb : c.raiseBefore = none)
    (hc : c.compareRaises = false)
    (hna : checkAccepts (countMatches c.phoneEq c.emailEq c.dobEq) amount
      = false) :
    (checkMatch ut amount index c st).1.accepts = st.accepts
    ∧ (checkMatch ut amount index c st).1.muUrl = st.muUrl
    ∧ (checkMatch ut amount index c st).2 = none := by
  simp only [checkMatch, hb, hc, hna, Bool.false_eq_true, if_false]
  split <;> simp [addFailedS]

/-- Helper: a candidate loop over rejected candidates accepts nobody:
the acceptance counter is unchanged, the match URL stays empty, and no
exception escapes. -/
theorem foldCands_nonaccept (ut : UploadType) (amount : Nat) :
    ∀ (cs : List Cand) (index : Nat) (st : LkSt),
      (∀ x ∈ cs, x.raiseBefore = none ∧ x.compareRaises = false ∧
        checkAccepts (countMatches x.phoneEq x.emailEq x.dobEq) amount
          = false) →
      st.muUrl = "" →
      (foldCands ut amount cs index st).1.accepts = st.accepts
      ∧ (foldCands ut amount cs index st).1.muUrl = ""
      ∧ (foldCands ut amount cs index st).2 = none := by
  intro cs
  induction cs with
  | nil => intro index st _ hmu; exact ⟨rfl, hmu, rfl⟩
  | cons c rest ih =>
    intro index st hcs hmu
    obtain ⟨hb, hc, hna⟩ := hcs c (List.mem_cons_self c rest)
    obtain ⟨ha1, hm1, hn1⟩ := checkMatch_nonaccept ut amount index c st hb hc hna
    have hfold : foldCands ut amount (c :: rest) index st
        = foldCands ut amount rest (index + 1) (checkMatch ut amount index c st).1 := by
      simp only [foldCands, hmu]
      rcases hcm : checkMatch ut amount index c st with ⟨st2, e⟩
      rw [hcm] at hn1
      simp only at hn1
      subst hn1
      simp
    rw [hfold]
    have hmu2 : (checkMatch ut amount index c st).1.muUrl = "" := by
      rw [hm1, hmu]
    obtain ⟨ra, rm, rn⟩ := ih (index + 1) (checkMatch ut amount index c st).1
      (fun x hx => hcs x (List.mem_cons_of_mem c hx)) hmu2
    exact ⟨by rw [ra, ha1], rm, rn⟩

/-- C1: the match scorer's decision rule.  (a) A candidate with at
least 2 of the 3 compared fields equal is accepted whatever the
candidate count; (b) a candidate with exactly 1 matching field is
accepted iff the search returned exactly one candidate; (c) against
three candidates each with at most one matching field, no candidate is
accepted: the candidate loop leaves the match URL empty and the
acceptance counter untouched, and the name-search dispatch falls
through to the no-match handling — profile creation for
`student`/`upload_user` units, the no-corresponding-user failure for
the other upload types. -/
theorem C1_match_scorer (ut : UploadType) (st : LkSt) (amount index : Nat)
    (c : Cand) (hb : c.raiseBefore = none) (hc : c.compareRaises = false)
    (cs : List Cand) (hlen : cs.length = 3)
    (hcs : ∀ x ∈ cs, x.raiseBefore = none ∧ x.compareRaises = false ∧
      countMatches x.phoneEq x.emailEq x.dobEq ≤ 1)
    (hmu : st.muUrl = "")
    (u : UnitUser) (env : LookupEnv) (henv : env.nameRes = .found cs)
    (hns : nameSearchTaken ut u = true) :
    (2 ≤ countMatches c.phoneEq c.emailEq c.dobEq →
      (checkMatch ut amount index c st).1.accepts = st.accepts + 1)
    ∧ (countMatches c.phoneEq c.emailEq c.dobEq = 1 →
      ((checkMatch ut amount index c st).1.accepts = st.accepts + 1
        ↔ amount = 1))
    ∧ ((foldCands ut 3 cs 0 st).1.accepts = st.accepts
      ∧ (foldCands ut 3 cs 0 st).1.muUrl = ""
      ∧ (nameBranch env u ut st
            = .inl { (foldCands ut 3 cs 0 st).1 with createdStudent := true }
        ∨ nameBranch env u ut st
            = .inr (addFailedS ((foldCands ut 3 cs 0 st).1) noUserReason))) := by
  have hfold := foldCands_nonaccept ut 3 cs 0 st
    (fun x hx => ⟨(hcs x hx).1, (hcs x hx).2.1,
      checkAccepts_le_one_three (hcs x hx).2.2⟩) hmu
  refine ⟨?_, ?_, hfold.1, hfold.2.1, ?_⟩
  · intro h2
    exact checkMatch_accept ut amount index c st hb hc (checkAccepts_ge_two h2)
  · intro h1
    constructor
    · intro hacc
      by_contra hne
      obtain ⟨ha1, _, _⟩ := checkMatch_nonaccept ut amount index c st hb hc
        (by rw [h1]; exact checkAccepts_one hne)
      omega
    · intro ha
      refine checkMatch_accept ut amount index c st hb hc ?_
      rw [h1, ha]
      decide
  · have h10 : ¬ cs.length ≥ 10 := by omega
    rcases hf : foldCands ut 3 cs 0 st with ⟨st2, e2⟩
    have he2 : e2 = none := by
      have := hfold.2.2
      rw [hf] at this
      exact this
    have hmu2 : st2.muUrl = "" := by
      have := hfold.2.1
      rw [hf] at this
      exact this
    subst he2
    by_cases hsu : (ut == UploadType.student || ut == UploadType.upload_user) = true
    · left
      simp only [nameBranch, hns, Bool.not_true, Bool.false_eq_true, if_false,
        henv, hlen, h10, if_neg, hf]
      simp [hsu, hmu2, hf]
    · right
      simp only [nameBranch, hns, Bool.not_true, Bool.false_eq_true, if_false,
        henv, hlen, h10, if_neg, hf]
      simp only [Bool.not_eq_true] at hsu
      simp [hsu, hmu2, hf]

/-- Witness for C1: a two-field candidate among three is accepted; a
one-field candidate against a single-candidate search is accepted
(`1 = 1`); instantiated through the decision-rule theorem. -/
theorem C1_match_scorer_witness :
    (checkMatch .update_user 3 0 cTwoMatch st0).1.accepts = st0.accepts + 1
    ∧ ((checkMatch .update_user 1 0 cOneMatch st0).1.accepts
        = st0.accepts + 1 ↔ 1 = 1) := by
  constructor
  · exact (C1_match_scorer .update_user st0 3 0 cTwoMatch (by decide)
      (by decide) threeCands (by decide) (by decide) (by decide) uPlain
      envThreeCands (by decide) (by decide)).1 (by decide)
  · exact (C1_match_scorer .update_user st0 1 0 cOneMatch (by decide)
      (by decide) threeCands (by decide) (by decide) (by decide) uPlain
      envThreeCands (by decide) (by decide)).2.1 (by decide)

/-- Helper: with the page present and both names non-empty,
`do_lookup`'s body is the branch cascade. -/
theorem doLookupOnce_body (env : LookupEnv) (u : UnitUser)
    (ut : UploadType) (rz : Bool) (k : LkSt → LkSt) (st : LkSt)
    (h1 : u.first_name ≠ "") (h2 : u.last_name ≠ "") :
    doLookupOnce env u ut true rz k st
      = (match nameBranch env u ut st with
        | .inl early => early
        | .inr st1 =>
          match osBranch env u ut rz k
              (oshaBranch env u (sstidBranch env u st1)) with
          | .inl escape => escape
          | .inr st4 => { st4 with muUrl := "" }) := by
  have hf1 : (u.first_name == "") = false := beq_eq_false_iff_ne.mpr h1
  have hf2 : (u.last_name == "") = false := beq_eq_false_iff_ne.mpr h2
  simp only [doLookupOnce, hf1, hf2, Bool.not_true, Bool.false_eq_true,
    if_false]

/-- Helper: the name-search branch defers with the excessive-profiles
failure, before opening any candidate, as soon as the search returns 10
or more candidates (lines 1341-1356). -/
theorem nameBranch_excessive (env : LookupEnv) (u : UnitUser)
    (ut : UploadType) (st : LkSt) (cs : List Cand)
    (hns : nameSearchTaken ut u = true) (henv : env.nameRes = .found cs)
    (h10 : 10 ≤ cs.length) :
    nameBranch env u ut st = .inl (addFailedS st excessiveReason) := by
  simp only [nameBranch, hns, henv, Bool.not_true, Bool.false_eq_true,
    if_false]
  simp [h10]

/-- Helper: a skipped name search passes the state through. -/
theorem nameBranch_skip (env : LookupEnv) (u : UnitUser) (ut : UploadType)
    (st : LkSt) (hns : nameSearchTaken ut u = false) :
    nameBranch env u ut st = .inr st := by
  simp [nameBranch, hns]

/-- Helper: without a card ID the card-ID branch passes the state
through. -/
theorem sstidBranch_skip (env : LookupEnv) (u : UnitUser) (st : LkSt)
    (h : u.sstid = "") : sstidBranch env u st = st := by
  simp [sstidBranch, h]

/-- Helper: without an OSHA ID the OSHA branch passes the state
through. -/
theorem oshaBranch_skip (env : LookupEnv) (u : UnitUser) (st : LkSt)
    (h : u.osha_id = "") : oshaBranch env u st = st := by
  simp [oshaBranch, h]

/-- Helper: without the `our_student` flag the dashboard branch passes
the state through. -/
theorem osBranch_skip (env : LookupEnv) (u : UnitUser) (ut : UploadType)
    (rz : Bool) (k : LkSt → LkSt) (st : LkSt)
    (h : u.our_student = false) :
    osBranch env u ut rz k st = .inr st := by
  simp [osBranch, h]

/-- Helper: the dashboard branch defers with the excessive-profiles
failure only beyond 10 candidates (line 1620), without opening any. -/
theorem osBranch_excessive (env : LookupEnv) (u : UnitUser)
    (ut : UploadType) (rz : Bool) (k : LkSt → LkSt) (st : LkSt)
    (cs : List Cand) (hos : u.our_student = true)
    (henv : env.osRes = .found cs) (h10 : 10 < cs.length) :
    osBranch env u ut rz k st = .inr (addFailedS st excessiveReason) := by
  have hz : ¬ cs.length = 0 := by omega
  have hle : ¬ cs.length ≤ 10 := by omega
  simp only [osBranch, hos, henv, Bool.not_true, Bool.false_eq_true,
    if_false]
  simp [hz, hle, h10]

/-- Helper: every `check_match` call opens exactly one more candidate
profile, whatever its outcome. -/
theorem checkMatch_opened (ut : UploadType) (amount index : Nat) (c : Cand)
    (st : LkSt) :
    (checkMatch ut amount index c st).1.opened = st.opened + 1 := by
  cases ut <;> cases hb : c.raiseBefore <;> cases ha : c.raiseAfter <;>
    simp [checkMatch, hb, ha, addFailedS, addSysErr] <;>
    split_ifs <;> simp [addFailedS, addSysErr]

/-- Helper: the candidate loop never closes profiles: the opened
counter is monotone. -/
theorem foldCands_opened_ge (ut : UploadType) (amount : Nat) :
    ∀ (cs : List Cand) (index : Nat) (st : LkSt),
      st.opened ≤ (foldCands ut amount cs index st).1.opened := by
  intro cs
  induction cs with
  | nil => intro index st; exact le_refl _
  | cons c rest ih =>
    intro index st
    simp only [foldCands]
    by_cases hmu : (st.muUrl == "") = true
    · simp only [hmu, if_true]
      rcases hcm : checkMatch ut amount index c st with ⟨st2, e⟩
      have ho : st2.opened = st.opened + 1 := by
        have := checkMatch_opened ut amount index c st
        rw [hcm] at this
        exact this
      cases e with
      | none =>
        simp only []
        calc st.opened ≤ st2.opened := by omega
          _ ≤ _ := ih (index + 1) st2
      | some e => simp only []; omega
    · simp only [hmu, if_false]
      exact ih (index + 1) st

/-- Helper: a non-empty candidate loop entered with an empty match URL
opens at least one profile. -/
theorem foldCands_opened_succ (ut : UploadType) (amount : Nat)
    (cs : List Cand) (index : Nat) (st : LkSt) (hne : cs ≠ [])
    (hmu : st.muUrl = "") :
    st.opened < (foldCands ut amount cs index st).1.opened := by
  cases cs with
  | nil => exact absurd rfl hne
  | cons c rest =>
    simp only [foldCands, hmu, beq_self_eq_true, if_true]
    rcases hcm : checkMatch ut amount index c st with ⟨st2, e⟩
    have ho : st2.opened = st.opened + 1 := by
      have := checkMatch_opened ut amount index c st
      rw [hcm] at this
      exact this
    cases e with
    | none =>
      have := foldCands_opened_ge ut amount rest (index + 1) st2
      simp only []
      omega
    | some e => simp only []; omega

/-- Helper: a candidate whose portal reads, comparison loop and
post-acceptance work all succeed lets no exception escape
`check_match`. -/
theorem checkMatch_noRaise (ut : UploadType) (amount index : Nat)
    (c : Cand) (st : LkSt) (hb : c.raiseBefore = none)
    (hc : c.compareRaises = false) (ha : c.raiseAfter = none) :
    (checkMatch ut amount index c st).2 = none := by
  cases ut <;> simp [checkMatch, hb, hc, ha, addFailedS, addSysErr] <;>
    split_ifs <;> simp

/-- Helper: a candidate loop over non-raising candidates lets no
exception escape. -/
theorem foldCands_noRaise (ut : UploadType) (amount : Nat) :
    ∀ (cs : List Cand) (index : Nat) (st : LkSt),
      (∀ x ∈ cs, x.raiseBefore = none ∧ x.compareRaises = false ∧
        x.raiseAfter = none) →
      (foldCands ut amount cs index st).2 = none := by
  intro cs
  induction cs with
  | nil => intro index st _; rfl
  | cons c rest ih =>
    intro index st hcs
    obtain ⟨hb, hc, ha⟩ := hcs c (List.mem_cons_self c rest)
    simp only [foldCands]
    by_cases hmu : (st.muUrl == "") = true
    · simp only [hmu, if_true]
      rcases hcm : checkMatch ut amount index c st with ⟨st2, e⟩
      have hn : e = none := by
        have := checkMatch_noRaise ut amount index c st hb hc ha
        rw [hcm] at this
        exact this
      subst hn
      exact ih (index + 1) st2 (fun x hx => hcs x (List.mem_cons_of_mem c hx))
    · simp only [hmu, if_false]
      exact ih (index + 1) st (fun x hx => hcs x (List.mem_cons_of_mem c hx))

/-- Helper: the dashboard branch runs the candidate loop for any count
between 1 and 10 inclusive; with non-raising candidates it completes
and clears the match URL (line 1619). -/
theorem osBranch_runs_loop (env : LookupEnv) (u : UnitUser)
    (ut : UploadType) (rz : Bool) (k : LkSt → LkSt) (st : LkSt)
    (cs : List Cand) (hos : u.our_student = true)
    (henv : env.osRes = .found cs) (hlo : 1 ≤ cs.length)
    (hhi : cs.length ≤ 10)
    (hnr : ∀ x ∈ cs, x.raiseBefore = none ∧ x.compareRaises = false ∧
      x.raiseAfter = none) :
    osBranch env u ut rz k st
      = .inr { (foldCands ut cs.length cs 0 st).1 with muUrl := "" } := by
  have hz : ¬ cs.length = 0 := by omega
  simp only [osBranch, hos, henv, Bool.not_true, Bool.false_eq_true,
    if_false]
  rcases hf : foldCands ut cs.length cs 0 st with ⟨st2, e⟩
  have hn : e = none := by
    have := foldCands_noRaise ut cs.length cs 0 st hnr
    rw [hf] at this
    exact this
  subst hn
  simp [hz, hlo, hhi, hf]

/-- C5 (amended): (a) a plain name search returning 10 or more
candidates records the excessive-profiles failure and returns at once —
no candidate profile is opened or scored, and nothing else changes;
(b) the `our_student` dashboard search defers the same way only beyond
10 candidates (strictly more than 10), again opening nothing; (c) with
exactly 10 dashboard candidates — more than 9 — automatic
disambiguation IS attempted: at least one candidate profile is
opened. -/
theorem C5_candidate_threshold :
    (∀ (env envR : LookupEnv) (u : UnitUser) (ut : UploadType) (st : LkSt)
        (cs : List Cand),
      u.first_name ≠ "" → u.last_name ≠ "" →
      nameSearchTaken ut u = true →
      env.nameRes = .found cs → 10 ≤ cs.length →
      doLookup env envR u ut true st = addFailedS st excessiveReason)
    ∧ (∀ (env envR : LookupEnv) (u : UnitUser) (ut : UploadType) (st : LkSt)
        (cs : List Cand),
      u.first_name ≠ "" → u.last_name ≠ "" →
      nameSearchTaken ut u = false → u.sstid = "" → u.osha_id = "" →
      u.our_student = true →
      env.osRes = .found cs → 10 < cs.length →
      doLookup env envR u ut true st
        = { addFailedS st excessiveReason with muUrl := "" })
    ∧ (∀ (env envR : LookupEnv) (u : UnitUser) (ut : UploadType) (st : LkSt)
        (cs : List Cand),
      u.first_name ≠ "" → u.last_name ≠ "" →
      nameSearchTaken ut u = false → u.sstid = "" → u.osha_id = "" →
      u.our_student = true → st.muUrl = "" →
      (∀ x ∈ cs, x.raiseBefore = none ∧ x.compareRaises = false ∧
        x.raiseAfter = none) →
      env.osRes = .found cs → cs.length = 10 →
      st.opened < (doLookup env envR u ut true st).opened) := by
  refine ⟨?_, ?_, ?_⟩
  · intro env envR u ut st cs h1 h2 hns henv h10
    unfold doLookup
    rw [doLookupOnce_body env u ut true _ st h1 h2,
      nameBranch_excessive env u ut st cs hns henv h10]
  · intro env envR u ut st cs h1 h2 hns hss hoo hos henv h10
    unfold doLookup
    rw [doLookupOnce_body env u ut true _ st h1 h2,
      nameBranch_skip env u ut st hns]
    dsimp only
    rw [sstidBranch_skip env u st hss, oshaBranch_skip env u st hoo,
      osBranch_excessive env u ut true _ st cs hos henv h10]
  · intro env envR u ut st cs h1 h2 hns hss hoo hos hmu hnr henv hlen
    unfold doLookup
    rw [doLookupOnce_body env u ut true _ st h1 h2,
      nameBranch_skip env u ut st hns]
    dsimp only
    rw [sstidBranch_skip env u st hss, oshaBranch_skip env u st hoo,
      osBranch_runs_loop env u ut true _ st cs hos henv (by omega)
        (by omega) hnr]
    simp only []
    have := foldCands_opened_succ ut cs.length cs 0 st
      (by intro h; rw [h] at hlen; simp at hlen) hmu
    exact this

/-- Witness for C5: part (a) at a concrete plain name search returning
ten candidates. -/
theorem C5_candidate_threshold_witness :
    doLookup envRetryTen envRetryTen uPlain .student true st0
      = addFailedS st0 excessiveReason :=
  C5_candidate_threshold.1 envRetryTen envRetryTen uPlain .student st0
    (List.replicate 10 cNoMatch) (by decide) (by decide) (by decide) rfl
    (by decide)

/-- Helper: whenever the name-search branch returns early out of
`do_lookup` (excessive profiles or the `create_student` hand-off), the
match URL it returns is empty, provided it was empty at entry. -/
theorem nameBranch_inl_mu (env : LookupEnv) (u : UnitUser)
    (ut : UploadType) (st : LkSt) (x : LkSt) (hmu : st.muUrl = "")
    (hx : nameBranch env u ut st = .inl x) : x.muUrl = "" := by
  unfold nameBranch at hx
  split at hx
  · simp at hx
  · split at hx
    · split at hx <;> simp_all
    · split at hx
      · rw [Sum.inl.injEq] at hx
        subst hx
        simpa [addFailedS] using hmu
      · split at hx
        · split at hx <;> simp_all
        · split at hx
          · rename_i st2 _ hguard
            rw [Sum.inl.injEq] at hx
            subst hx
            simp only [Bool.and_eq_true, beq_iff_eq] at hguard
            exact hguard.1
          · split at hx <;> simp_all

/-- Helper: the dashboard branch never escapes through the retry when
`retries` is already 1 (the handler then records a failure and falls
through instead, lines 1642-1656). -/
theorem osBranch_noRetry_inr (env : LookupEnv) (u : UnitUser)
    (ut : UploadType) (k : LkSt → LkSt) (st : LkSt) :
    ∃ st2, osBranch env u ut false k st = .inr st2 := by
  by_cases hu : u.our_student = true
  · rcases hres : env.osRes with e | cs
    · cases e
      all_goals simp [osBranch, hu, hres]
    · by_cases hr : (decide (1 ≤ cs.length) && decide (cs.length ≤ 10))
        = true
      · have hz : (cs.length == 0) = false := by
          simp only [Bool.and_eq_true, decide_eq_true_eq] at hr
          rw [beq_eq_false_iff_ne]
          omega
        simp only [osBranch, hu, hres, Bool.not_true, Bool.false_eq_true,
          if_false, hz, hr, if_true]
        rcases hf : foldCands ut cs.length cs 0 st with ⟨st2, e⟩
        cases e with
        | none => exact ⟨_, rfl⟩
        | some ee => cases ee <;> exact ⟨_, rfl⟩
      · have hr2 : (decide (1 ≤ cs.length) && decide (cs.length ≤ 10))
            = false := by simpa using hr
        by_cases h10 : cs.length > 10
        · simp [osBranch, hu, hres, hr2, h10]
        · simp [osBranch, hu, hres, hr2, h10]
  · have hu2 : u.our_student = false := by simpa using hu
    exact ⟨st, osBranch_skip env u ut false k st hu2⟩

/-- Helper: an escape out of the dashboard branch at `retries == 0` is
exactly the value of the retry continuation at some state. -/
theorem osBranch_inl_exists (env : LookupEnv) (u : UnitUser)
    (ut : UploadType) (k : LkSt → LkSt) (st : LkSt) (x : LkSt)
    (hx : osBranch env u ut true k st = .inl x) : ∃ st2, x = k st2 := by
  by_cases hu : u.our_student = true
  · rcases hres : env.osRes with e | cs
    · cases e <;> simp [osBranch, hu, hres] at hx
      all_goals exact ⟨st, hx.symm⟩
    · by_cases hr : (decide (1 ≤ cs.length) && decide (cs.length ≤ 10))
        = true
      · have hz : (cs.length == 0) = false := by
          simp only [Bool.and_eq_true, decide_eq_true_eq] at hr
          rw [beq_eq_false_iff_ne]
          omega
        simp only [osBranch, hu, hres, Bool.not_true, Bool.false_eq_true,
          if_false, hz, hr, if_true] at hx
        rcases hf : foldCands ut cs.length cs 0 st with ⟨st2, e⟩
        rw [hf] at hx
        cases e with
        | none => simp at hx
        | some ee =>
          cases ee <;> simp at hx
          all_goals exact ⟨st2, hx.symm⟩
      · have hr2 : (decide (1 ≤ cs.length) && decide (cs.length ≤ 10))
            = false := by simpa using hr
        by_cases h10 : cs.length > 10
        · simp [osBranch, hu, hres, hr2, h10] at hx
        · simp [osBranch, hu, hres, hr2, h10] at hx
  · have hu2 : u.our_student = false := by simpa using hu
    rw [osBranch_skip env u ut true k st hu2] at hx
    simp at hx

/-- Helper: the retried `do_lookup` invocation (`retries == 1`) always
returns with an empty match URL, provided either its entry match URL is
empty or its name-search branch is skipped: every path of the retried
body ends in the reset of line 1678, except the name-search early
returns, which preserve an empty entry URL. -/
theorem doLookupOnce_depth1_mu (env : LookupEnv) (u : UnitUser)
    (ut : UploadType) (st : LkSt)
    (h1 : u.first_name ≠ "") (h2 : u.last_name ≠ "")
    (hcond : st.muUrl = "" ∨ nameSearchTaken ut u = false) :
    (doLookupOnce env u ut true false (fun s2 => s2) st).muUrl = "" := by
  rw [doLookupOnce_body env u ut false _ st h1 h2]
  rcases hnb : nameBranch env u ut st with early | st1
  · rcases hcond with hmu | hns
    · exact nameBranch_inl_mu env u ut st early hmu hnb
    · rw [nameBranch_skip env u ut st hns] at hnb
      simp at hnb
  · obtain ⟨st2, hst2⟩ := osBranch_noRetry_inr env u ut (fun s2 => s2)
      (oshaBranch env u (sstidBranch env u st1))
    simp [hst2]

/-- C10 (amended): `do_lookup` returns with an empty `match_user_url`
— the final reset of line 1678 on normally-completing paths, the
unchanged empty entry value on the early returns — for every unit that
does not combine the `our_student` flag with a name-searchable upload
type (`student`, `upload_user`, `update_user`); consequently, for such
units, the `update_user` end-of-batch check of line 1841 always sees an
empty `match_user_url` and the could-not-verify notice always fires,
whatever the accumulated user list.  (For `our_student` units of
name-searchable types the counterexample path — match recorded, then a
network/timeout failure of the dashboard search, then an early return
of the retry — can leave the matched URL behind.) -/
theorem C10_match_url_reset (env envR : LookupEnv) (u : UnitUser)
    (ut : UploadType) (hasPage : Bool) (st : LkSt)
    (users : List FailedRec) (hmu : st.muUrl = "")
    (hos : u.our_student = true → ut = .certificate ∨ ut = .other) :
    (doLookup env envR u ut hasPage st).muUrl = ""
    ∧ endOfBatchEmails .update_user users
        (doLookup env envR u ut hasPage st).muUrl
      = [.couldNotVerifyEmail] := by
  have key : (doLookup env envR u ut hasPage st).muUrl = "" := by
    unfold doLookup
    cases hp : hasPage with
    | false => simpa [doLookupOnce] using hmu
    | true =>
      by_cases hn1 : u.first_name = ""
      · simp [doLookupOnce, hn1, addFailedS, hmu]
      · by_cases hn2 : u.last_name = ""
        · have hf1 : (u.first_name == "") = false := beq_eq_false_iff_ne.mpr hn1
          simp [doLookupOnce, hf1, hn2, addFailedS, hmu]
        · rw [doLookupOnce_body env u ut true _ st hn1 hn2]
          rcases hnb : nameBranch env u ut st with early | st1
          · exact nameBranch_inl_mu env u ut st early hmu hnb
          · rcases hob : osBranch env u ut true
                (fun s => doLookupOnce envR u ut true false (fun s2 => s2) s)
                (oshaBranch env u (sstidBranch env u st1)) with x | st4
            · have hosT : u.our_student = true := by
                by_contra hcon
                have hfls : u.our_student = false := by simpa using hcon
                rw [osBranch_skip env u ut true _ _ hfls] at hob
                simp at hob
              have hns : nameSearchTaken ut u = false := by
                rcases hos hosT with h | h <;> subst h <;>
                  simp [nameSearchTaken, hosT]
              obtain ⟨st2, hx⟩ := osBranch_inl_exists env u ut _ _ x hob
              subst hx
              simp only [hob]
              exact doLookupOnce_depth1_mu envR u ut st2 hn1 hn2 (Or.inr hns)
            · simp [hob]
  refine ⟨key, ?_⟩
  rw [key]
  rfl

/-- Witness for C10 at a concrete `update_user` unit without the
`our_student` flag. -/
theorem C10_match_url_reset_witness :
    (doLookup envThreeCands envThreeCands uPlain .update_user true st0).muUrl
      = ""
    ∧ endOfBatchEmails .update_user []
        (doLookup envThreeCands envThreeCands uPlain .update_user true
          st0).muUrl
      = [.couldNotVerifyEmail] :=
  C10_match_url_reset envThreeCands envThreeCands uPlain .update_user true
    st0 [] rfl (by decide)

/-- Helper: the batch loop over positions `pos .. n` (only the last
unit carrying `position == max`) fires the operator notifications
exactly once, at the last unit, with the accumulated user list and that
unit's final `match_user_url`, and then clears the per-batch state;
system errors accumulate across the loop and are not cleared there. -/
theorem runUnitsC3_batch (ut : UploadType) :
    ∀ (outs : List UnitOutcome) (olast : UnitOutcome) (n pos : Nat)
      (st : BatchSt),
      outs.getLast? = some olast →
      pos + outs.length = n + 1 →
      runUnitsC3 (mkBatchGo ut n pos outs) st
        = { users := [],
            sysErrors := st.sysErrors
              ++ outs.flatMap (fun o => o.addsSysErrs),
            muUrl := "",
            emails := st.emails ++ endOfBatchEmails ut
              (st.users
                ++ outs.map (fun o => ({ failed := o.addsFailed } : FailedRec)))
              olast.muAfter } := by
  intro outs
  induction outs with
  | nil => intro olast n pos st hlast _; simp at hlast
  | cons o rest ih =>
    intro olast n pos st hlast hpos
    cases rest with
    | nil =>
      have ho : olast = o := by simpa using hlast.symm
      have hpn : pos = n := by
        simp only [List.length_cons, List.length_nil] at hpos
        omega
      subst ho
      subst hpn
      simp [runUnitsC3, mkBatchGo, runUnitC3]
    | cons r rs =>
      have hlast2 : (r :: rs).getLast? = some olast := by
        rw [← List.getLast?_cons_cons]
        exact hlast
      have hpos2 : (pos + 1) + (r :: rs).length = n + 1 := by
        simp only [List.length_cons] at hpos ⊢
        omega
      have hne : (pos == n) = false := by
        rw [beq_eq_false_iff_ne]
        simp only [List.length_cons] at hpos
        omega
      have hstep : runUnitsC3 (mkBatchGo ut n pos (o :: r :: rs)) st
          = runUnitsC3 (mkBatchGo ut n (pos + 1) (r :: rs))
              (runUnitC3 { position := pos, maxPos := n, uploadType := ut }
                o st) := rfl
      have hunit : runUnitC3 { position := pos, maxPos := n, uploadType := ut }
            o st
          = { users := st.users ++ [{ failed := o.addsFailed }],
              sysErrors := st.sysErrors ++ o.addsSysErrs,
              muUrl := o.muAfter, emails := st.emails } := by
        simp [runUnitC3, hne]
      rw [hstep, hunit, ih olast n (pos + 1) _ hlast2 hpos2]
      simp [List.append_assoc]

/-- C3 (amended): when the unit with `position == max` finishes, the
operator notifications triggered are exactly those of the branch
selected by that unit's upload type — one failed-certificates email for
certificate batches and one failed-students email for
`student`/`upload_user` batches, sent even when the failure category is
empty; one could-not-verify notice for `update_user` batches iff
`match_user_url` is empty at the check; none for unrecognised types —
and no email is triggered at any earlier unit; plus exactly one
internal alert iff at least one `SystemErrorRecord` accumulated over
the batch, after which the system-error list is cleared. -/
theorem C3_notification_count (ut : UploadType) (outs : List UnitOutcome)
    (olast : UnitOutcome) (hlast : outs.getLast? = some olast) :
    (runBatchC3 (mkBatch ut outs) batch0).emails
      = endOfBatchEmails ut
          (outs.map (fun o => ({ failed := o.addsFailed } : FailedRec)))
          olast.muAfter
        ++ (if (outs.flatMap (fun o => o.addsSysErrs)).isEmpty then []
            else [.internalAlert (outs.flatMap (fun o => o.addsSysErrs))])
    ∧ (runBatchC3 (mkBatch ut outs) batch0).sysErrors = [] := by
  have hpos : 1 + outs.length = outs.length + 1 := by omega
  have hloop := runUnitsC3_batch ut outs olast outs.length 1 batch0 hlast hpos
  unfold runBatchC3 mkBatch
  rw [hloop]
  by_cases he : (outs.flatMap fun o => o.addsSysErrs).isEmpty = true
  · have hE : outs.flatMap (fun o => o.addsSysErrs) = [] := by
      simpa using he
    simp [flushSystemErrors, hE, batch0]
  · have he2 : (outs.flatMap fun o => o.addsSysErrs).isEmpty = false := by
      simpa using he
    simp [flushSystemErrors, he2, batch0]

/-- Witness for C3 at a one-unit student batch whose unit fails and
raises one system error. -/
theorem C3_notification_count_witness :
    (runBatchC3 (mkBatch .student [oW]) batch0).emails
      = endOfBatchEmails .student
          ([oW].map (fun o => ({ failed := o.addsFailed } : FailedRec)))
          oW.muAfter
        ++ (if ([oW].flatMap (fun o => o.addsSysErrs)).isEmpty then []
            else [.internalAlert ([oW].flatMap (fun o => o.addsSysErrs))])
    ∧ (runBatchC3 (mkBatch .student [oW]) batch0).sysErrors = [] :=
  C3_notification_count .student [oW] oW rfl
